import Mathlib

/-!
Shallow embedding of the Cursor usage-based-billing monitor worker
(`src/index.ts`): data model, per-account decision logic, run controller,
notifier, and HTTP entry point, together with theorems settling the
specification claims about them.

Outbound HTTP calls are modelled by oracles (a `World`) giving, per input,
the network outcome each call would observe; each function then computes
the exact branch the source code takes on that outcome.  Side effects are
reified as an explicit list of `Event`s in the order the source performs
them.
-/

namespace CursorMonitor

/-- An entry of the stored account list: an object with `email` and `cookie`
fields, as in the `Account` interface of `src/index.ts`. -/
structure Account where
  email : String
  cookie : String
deriving DecidableEq, Repr

/-- Parsed body of the `get-hard-limit` endpoint (`GetHardLimitResponse` in
`src/index.ts`): both fields are optional in the source
(`noUsageBasedAllowed?: boolean; hardLimit?: number`), so each is an
`Option` here, `none` meaning the field is absent. -/
structure GetHardLimitResponse where
  noUsageBasedAllowed : Option Bool
  hardLimit : Option Int
deriving DecidableEq, Repr

/-- Observable side effects of a run, in source order.
`statusCheck` is the POST to `get-hard-limit` (carrying the account cookie),
`disableCall` the POST to `set-hard-limit`, `notify` an invocation of
`sendWeChatNotification` with the given message, and `webhookPost` the
actual outbound POST to the WeChat webhook (made only when the key is
non-empty). -/
inductive Event where
  | statusCheck (cookie : String)
  | disableCall (cookie : String)
  | notify (message : String)
  | webhookPost (key : String) (message : String)
deriving DecidableEq, Repr

/-- True exactly on `statusCheck` events. -/
def Event.isStatusCheck : Event → Bool
  | .statusCheck _ => true
  | _ => false

/-- True exactly on `disableCall` events. -/
def Event.isDisableCall : Event → Bool
  | .disableCall _ => true
  | _ => false

/-- True on the two monitoring calls against the billing API
(status checks and disable calls). -/
def Event.isMonitoring (e : Event) : Bool :=
  e.isStatusCheck || e.isDisableCall

/-- The messages of the `notify` events of a trace, in order: one entry per
invocation of `sendWeChatNotification`. -/
def notifyMsgs (es : List Event) : List String :=
  es.filterMap fun e =>
    match e with
    | Event.notify m => some m
    | _ => none

/-- Network outcome observed by `checkHardLimit`: the fetch either rejects
(`netErr`), or yields a response with an `ok` flag and a body that either
parses as a `GetHardLimitResponse` or fails to parse (`none`). -/
inductive StatusNetOutcome where
  | netErr
  | resp (ok : Bool) (body : Option GetHardLimitResponse)
deriving DecidableEq, Repr

/-- Network outcome observed by `disableHardLimit`: rejection or a response
with an `ok` flag (the body is never inspected by the source). -/
inductive HttpOutcome where
  | netErr
  | resp (ok : Bool)
deriving DecidableEq, Repr

/-- Network outcome observed by `sendWeChatNotification`: rejection, or a
response with an `ok` flag and a body.  The body is `none` when
`response.json()` throws, and otherwise `some errcode` where `errcode` is
the optional `errcode` field of the parsed object (`none` when absent). -/
inductive NotifyNetOutcome where
  | netErr
  | resp (ok : Bool) (errcode : Option (Option Int))
deriving DecidableEq, Repr

/-- Outcome of `JSON.parse` on the stored account-list string, abstracted to
what `handleScheduled` can observe.  `throws` is a parse error (invalid
JSON, caught by the `try`/`catch` around `JSON.parse`); `arr xs` is a JSON
array of account objects, which the unchecked `as Account[]` cast passes
through; `nonIterable` is valid JSON whose value is not an array (for
example a number, boolean, object, or null): the cast also lets such a value
through, `accounts.length === 0` is false for it (its `length` is undefined,
or the member access throws for null), and the `for...of` loop over it then
throws an uncaught TypeError. -/
inductive ParseOutcome where
  | throws
  | arr (accounts : List Account)
  | nonIterable
deriving DecidableEq, Repr

/-- Oracles fixing, for one run, the outcome every external interaction
would observe: the status-check, disable and webhook network outcomes per
input, the result of `JSON.parse` per stored string, and whether processing
a given account raises an unexpected runtime error (modelled as thrown at
the entry of `processAccount`, before any of its own calls). -/
structure World where
  statusNet : String → StatusNetOutcome
  disableNet : String → HttpOutcome
  notifyNet : String → NotifyNetOutcome
  jsonParse : String → ParseOutcome
  raises : Account → Bool

/-- Message of line 150 of `src/index.ts` (status check failed, cookie may
have expired). -/
def expiredMsg (email : String) : String :=
  "账号 " ++ email ++ " 检查失败，可能 Cookie 已过期，请更新 Cookie"

/-- Message of line 170 of `src/index.ts` (limit detected and disabled,
including the detected limit value). -/
def disabledMsg (email : String) (hl : Int) : String :=
  "账号 " ++ email ++ " 按量付费被开启（限额 $" ++ toString hl ++ "），已自动关闭"

/-- Message of line 175 of `src/index.ts` (limit detected but automatic
disabling failed; note it does not mention the limit value). -/
def disableFailedMsg (email : String) : String :=
  "账号 " ++ email ++ " 按量付费被开启，但自动关闭失败，请手动处理！"

/-- Message of line 198 of `src/index.ts` (account configuration missing). -/
def missingMsg : String :=
  "脚本因错误停止：未找到账号配置，请在 KV 中添加 cursor_accounts"

/-- Message of line 210 of `src/index.ts` (account configuration is invalid
JSON). -/
def malformedMsg : String :=
  "脚本因错误停止：账号配置 JSON 格式错误，请检查"

/-- Message of line 230 of `src/index.ts` (unexpected error while processing
an account, caught by the run loop). -/
def loopErrMsg (email : String) : String :=
  "处理账号 " ++ email ++ " 时发生错误，请查看日志"

/-- `sendWeChatNotification` of `src/index.ts`, returning its emitted events
and its boolean result.  An empty key is falsy, so the function returns
`false` at once without any outbound call; otherwise the webhook POST is
made and the result follows the source: `false` on fetch rejection, on a
non-ok response, on an unparseable body, or on an `errcode` field different
from `0` (including absent), and `true` otherwise.  All failure paths are
caught inside the function, so it is total (never raises to its caller). -/
def sendWeChatNotification (w : World) (webhookKey message : String) :
    List Event × Bool :=
  if webhookKey = "" then
    ([Event.notify message], false)
  else
    ([Event.notify message, Event.webhookPost webhookKey message],
      match w.notifyNet message with
      | NotifyNetOutcome.netErr => false
      | NotifyNetOutcome.resp ok errcode =>
        if !ok then false
        else
          match errcode with
          | none => false
          | some e => if e = some 0 then true else false)

/-- `checkHardLimit` of `src/index.ts`: fetch rejection and non-ok responses
collapse to `null` (here `none`), as does a body that fails to parse;
otherwise the parsed `GetHardLimitResponse` is returned. -/
def checkHardLimit : StatusNetOutcome → Option GetHardLimitResponse
  | StatusNetOutcome.netErr => none
  | StatusNetOutcome.resp ok body => if !ok then none else body

/-- `disableHardLimit` of `src/index.ts`: `true` exactly when the fetch
resolves with an ok (2xx) response; rejection and non-ok responses give
`false`. -/
def disableHardLimit : HttpOutcome → Bool
  | HttpOutcome.netErr => false
  | HttpOutcome.resp ok => ok

/-- Lines 146-181 of `processAccount`: the decision taken on the result of
the status check.  `none` (the failure sentinel) notifies that the cookie
may have expired; a status with `noUsageBasedAllowed === true` does nothing;
else a defined and strictly positive `hardLimit` triggers the disable call
and a success- or failure-describing notification; else nothing. -/
def processStatus (w : World) (a : Account) (key : String) :
    Option GetHardLimitResponse → List Event
  | none => (sendWeChatNotification w key (expiredMsg a.email)).1
  | some status =>
    if status.noUsageBasedAllowed = some true then
      []
    else
      match status.hardLimit with
      | some hl =>
        if 0 < hl then
          Event.disableCall a.cookie ::
            (if disableHardLimit (w.disableNet a.cookie) then
              (sendWeChatNotification w key (disabledMsg a.email hl)).1
            else
              (sendWeChatNotification w key (disableFailedMsg a.email)).1)
        else []
      | none => []

/-- `processAccount` of `src/index.ts`: one status check followed by the
decision on its result. -/
def processAccount (w : World) (a : Account) (key : String) : List Event :=
  Event.statusCheck a.cookie ::
    processStatus w a key (checkHardLimit (w.statusNet a.cookie))

/-- The `for...of` loop of `handleScheduled` (lines 223-233): each account is
processed inside a `try`; an unexpected error is caught, one notification
naming the account is sent, and the loop continues with the next account. -/
def runLoop (w : World) (key : String) : List Account → List Event
  | [] => []
  | a :: rest =>
    (if w.raises a then
      (sendWeChatNotification w key (loopErrMsg a.email)).1
    else
      processAccount w a key) ++ runLoop w key rest

/-- `handleScheduled` of `src/index.ts`.  `stored` is the KV value for
`cursor_accounts` (`none` when the entry is absent).  The result is the
event trace paired with `true` when the function returns normally and
`false` when it terminates by an uncaught error (which then rejects the
promise handed to `ctx.waitUntil`).  A falsy stored value (absent entry or
empty string) sends the missing-configuration notification; a JSON parse
error sends the malformed-configuration notification; a valid-JSON
non-array value passes the unchecked cast and makes the `for...of` loop
throw an uncaught TypeError; an empty parsed list just logs; otherwise the
accounts are processed in order by the loop. -/
def handleScheduled (w : World) (stored : Option String) (key : String) :
    List Event × Bool :=
  match stored with
  | none => ((sendWeChatNotification w key missingMsg).1, true)
  | some raw =>
    if raw = "" then
      ((sendWeChatNotification w key missingMsg).1, true)
    else
      match w.jsonParse raw with
      | ParseOutcome.throws =>
        ((sendWeChatNotification w key malformedMsg).1, true)
      | ParseOutcome.nonIterable => ([], false)
      | ParseOutcome.arr accounts =>
        if accounts.length = 0 then ([], true)
        else (runLoop w key accounts, true)

/-- Body of one of the three JSON responses of the `fetch` handler. -/
inductive BodyKind where
  | checkAck
  | health (timestamp : String)
  | info
deriving DecidableEq, Repr

/-- An HTTP response of the `fetch` handler: the Worker `Response`
constructor is called without an explicit status, so the status is 200, and
every branch sets the `application/json` content type. -/
structure HttpResponse where
  status : Nat
  contentType : String
  body : BodyKind
deriving DecidableEq, Repr

/-- Result of the `fetch` handler: the immediate response plus the event
trace of the background task handed to `ctx.waitUntil` (empty when no run is
triggered). -/
structure FetchResult where
  response : HttpResponse
  background : List Event
deriving Repr

set_option linter.unusedVariables false in
/-- The `fetch` entry point of `src/index.ts`.  Routing looks only at
`url.pathname` (`request.method` is never read, so `method` is an unused
argument here, exactly as in the source): `/check` triggers a run via
`ctx.waitUntil(handleScheduled(env))` and acknowledges immediately,
`/health` returns the health body with the current timestamp, and every
other path returns the info body. -/
def fetchHandler (w : World) (stored : Option String) (key : String)
    (method path now : String) : FetchResult :=
  if path = "/check" then
    ⟨⟨200, "application/json", BodyKind.checkAck⟩,
      (handleScheduled w stored key).1⟩
  else if path = "/health" then
    ⟨⟨200, "application/json", BodyKind.health now⟩, []⟩
  else
    ⟨⟨200, "application/json", BodyKind.info⟩, []⟩

/-! ## String helpers

A small executable substring test, used to state that a notification message
does or does not contain the rendering of the detected limit value, and a
last-character extractor, used to separate the success and failure
notification texts for every email. -/

/-- `isPrefixList n h` is true when `n` is a prefix of `h`. -/
def isPrefixList : List Char → List Char → Bool
  | [], _ => true
  | _ :: _, [] => false
  | a :: as, b :: bs => a = b && isPrefixList as bs

/-- `hasSub n h` is true when `n` occurs as a contiguous sublist of `h`. -/
def hasSub (n : List Char) (h : List Char) : Bool :=
  isPrefixList n h ||
    match h with
    | [] => false
    | _ :: bs => hasSub n bs

/-- `strHasSub n h` is true when the string `n` occurs inside the string
`h`. -/
def strHasSub (n h : String) : Bool :=
  hasSub n.data h.data

/-- The last character of a character list, if any. -/
def lastCh : List Char → Option Char
  | [] => none
  | c :: cs =>
    match lastCh cs with
    | none => some c
    | some d => some d

theorem isPrefixList_self_append (n r : List Char) :
    isPrefixList n (n ++ r) = true := by
  induction n with
  | nil => rfl
  | cons a as ih => simp [isPrefixList, ih]

theorem hasSub_self_append (n r : List Char) : hasSub n (n ++ r) = true := by
  rw [hasSub.eq_def, isPrefixList_self_append]
  simp

theorem hasSub_append_left (n l m : List Char) (h : hasSub n m = true) :
    hasSub n (l ++ m) = true := by
  induction l with
  | nil => simpa using h
  | cons c cs ih =>
    rw [List.cons_append, hasSub, ih]
    simp

theorem lastCh_append (l1 l2 : List Char) (c : Char)
    (h : lastCh l2 = some c) : lastCh (l1 ++ l2) = some c := by
  induction l1 with
  | nil => simpa using h
  | cons x xs ih =>
    rw [List.cons_append, lastCh, ih]

theorem string_data_append (s t : String) : (s ++ t).data = s.data ++ t.data :=
  rfl

/-- The rendering of the detected limit value occurs inside the success
notification message. -/
theorem strHasSub_disabledMsg (e : String) (hl : Int) :
    strHasSub (toString hl) (disabledMsg e hl) = true := by
  unfold strHasSub disabledMsg
  rw [string_data_append, string_data_append, string_data_append,
    string_data_append]
  rw [List.append_assoc]
  apply hasSub_append_left
  exact hasSub_self_append _ _

/-- For every email and limit value, the success notification text differs
from the failure notification text (their last characters differ). -/
theorem disabledMsg_ne_disableFailedMsg (e : String) (hl : Int) :
    disabledMsg e hl ≠ disableFailedMsg e := by
  intro h
  have h1 : lastCh (disabledMsg e hl).data = some (Char.ofNat 38381) := by
    unfold disabledMsg
    rw [string_data_append]
    exact lastCh_append _ _ _ rfl
  have h2 : lastCh (disableFailedMsg e).data = some (Char.ofNat 65281) := by
    unfold disableFailedMsg
    rw [string_data_append]
    exact lastCh_append _ _ _ rfl
  rw [h] at h1
  exact absurd (h1.symm.trans h2) (by decide)

/-! ## Helper lemmas about the notifier events -/

theorem sendWeChatNotification_fst (w : World) (key m : String) :
    (sendWeChatNotification w key m).1 =
      if key = "" then [Event.notify m]
      else [Event.notify m, Event.webhookPost key m] := by
  unfold sendWeChatNotification
  by_cases h : key = "" <;> simp [h]

theorem notifyMsgs_sendWeChatNotification (w : World) (key m : String) :
    notifyMsgs (sendWeChatNotification w key m).1 = [m] := by
  rw [sendWeChatNotification_fst]
  by_cases h : key = "" <;> simp [h, notifyMsgs]

theorem countP_statusCheck_sendWeChatNotification (w : World) (key m : String) :
    ((sendWeChatNotification w key m).1.countP Event.isStatusCheck) = 0 := by
  rw [sendWeChatNotification_fst]
  by_cases h : key = "" <;> simp [h, Event.isStatusCheck]

theorem countP_disableCall_sendWeChatNotification (w : World) (key m : String) :
    ((sendWeChatNotification w key m).1.countP Event.isDisableCall) = 0 := by
  rw [sendWeChatNotification_fst]
  by_cases h : key = "" <;> simp [h, Event.isDisableCall]

theorem monFilter_sendWeChatNotification (w : World) (key m : String) :
    (sendWeChatNotification w key m).1.filter Event.isMonitoring = [] := by
  rw [sendWeChatNotification_fst]
  by_cases h : key = "" <;>
    simp [h, Event.isMonitoring, Event.isStatusCheck, Event.isDisableCall]

theorem notifyMsgs_cons_statusCheck (c : String) (es : List Event) :
    notifyMsgs (Event.statusCheck c :: es) = notifyMsgs es :=
  rfl

theorem notifyMsgs_cons_disableCall (c : String) (es : List Event) :
    notifyMsgs (Event.disableCall c :: es) = notifyMsgs es :=
  rfl

/-! ## Concrete worlds used by witnesses and counterexamples -/

/-- A world in which the status check reports an absent flag and a limit of
50, the disable call succeeds, and the webhook accepts messages. -/
def demoWorld : World :=
  ⟨fun _ => StatusNetOutcome.resp true (some ⟨none, some 50⟩),
    fun _ => HttpOutcome.resp true,
    fun _ => NotifyNetOutcome.resp true (some (some 0)),
    fun _ => ParseOutcome.arr [⟨"a@x.com", "c1"⟩],
    fun _ => false⟩

/-- A world identical to `demoWorld` except that the disable call fails
(non-ok response). -/
def disableFailWorld : World :=
  ⟨fun _ => StatusNetOutcome.resp true (some ⟨none, some 50⟩),
    fun _ => HttpOutcome.resp false,
    fun _ => NotifyNetOutcome.resp true (some (some 0)),
    fun _ => ParseOutcome.throws,
    fun _ => false⟩

/-! ## Claim C1 -/

/-- Claim C1, counterexample: in a world where the account status is
`hardLimit = 50` with `noUsageBasedAllowed` absent and the disable call
fails, `processAccount` makes one disable call and sends exactly one
notification, but that notification (line 175 of the source) does not
contain the detected limit value `50`, contradicting the claim that the
notification content includes the detected limit value. -/
theorem c1_counterexample :
    processAccount disableFailWorld ⟨"a@x.com", "c1"⟩ "k" =
      [Event.statusCheck "c1", Event.disableCall "c1",
        Event.notify (disableFailedMsg "a@x.com"),
        Event.webhookPost "k" (disableFailedMsg "a@x.com")] ∧
    strHasSub (toString (50 : Int)) (disableFailedMsg "a@x.com") = false := by
  exact ⟨rfl, rfl⟩

/-- Claim C1 (amended): for every account whose status query returns a
result in which `noUsageBasedAllowed` is absent or false and `hardLimit` is
present and strictly positive, `processAccount` makes exactly one disable
call and sends exactly one notification; the notification text reflects
whether the disable call succeeded or failed (the two texts always differ),
and the success text includes the detected limit value. -/
theorem c1_amended (w : World) (a : Account) (key : String)
    (st : GetHardLimitResponse) (hl : Int)
    (hst : checkHardLimit (w.statusNet a.cookie) = some st)
    (hflag : st.noUsageBasedAllowed = none ∨ st.noUsageBasedAllowed = some false)
    (hhl : st.hardLimit = some hl) (hpos : 0 < hl) :
    (processAccount w a key).countP Event.isDisableCall = 1 ∧
    notifyMsgs (processAccount w a key) =
      [if disableHardLimit (w.disableNet a.cookie) then disabledMsg a.email hl
        else disableFailedMsg a.email] ∧
    strHasSub (toString hl) (disabledMsg a.email hl) = true ∧
    disabledMsg a.email hl ≠ disableFailedMsg a.email := by
  have hne : ¬ st.noUsageBasedAllowed = some true := by
    rcases hflag with h | h <;> simp [h]
  have htrace : processAccount w a key =
      Event.statusCheck a.cookie :: Event.disableCall a.cookie ::
        (if disableHardLimit (w.disableNet a.cookie) then
          (sendWeChatNotification w key (disabledMsg a.email hl)).1
        else
          (sendWeChatNotification w key (disableFailedMsg a.email)).1) := by
    unfold processAccount
    rw [hst]
    simp only [processStatus]
    rw [if_neg hne, hhl]
    simp [hpos]
  refine ⟨?_, ?_, strHasSub_disabledMsg a.email hl,
    disabledMsg_ne_disableFailedMsg a.email hl⟩
  · rw [htrace]
    by_cases hd : disableHardLimit (w.disableNet a.cookie) <;>
      simp [hd, List.countP_cons, Event.isDisableCall,
        countP_disableCall_sendWeChatNotification]
  · rw [htrace, notifyMsgs_cons_statusCheck]
    by_cases hd : disableHardLimit (w.disableNet a.cookie) <;>
      simp [hd, notifyMsgs_cons_disableCall, notifyMsgs_sendWeChatNotification]

/-- Claim C1 (amended), witness at a concrete input: account
`a@x.com`/`c1`, status `hardLimit = 50` with the flag absent, disable call
succeeding. -/
theorem c1_amended_witness :
    (processAccount demoWorld ⟨"a@x.com", "c1"⟩ "k").countP Event.isDisableCall = 1 ∧
    notifyMsgs (processAccount demoWorld ⟨"a@x.com", "c1"⟩ "k") =
      [if disableHardLimit (demoWorld.disableNet "c1") then disabledMsg "a@x.com" 50
        else disableFailedMsg "a@x.com"] ∧
    strHasSub (toString (50 : Int)) (disabledMsg "a@x.com" 50) = true ∧
    disabledMsg "a@x.com" 50 ≠ disableFailedMsg "a@x.com" :=
  c1_amended demoWorld ⟨"a@x.com", "c1"⟩ "k" ⟨none, some 50⟩ 50 rfl
    (Or.inl rfl) rfl (by decide)

/-! ## Claim C2 -/

/-- Claim C2: for every account whose status query returns a result with
`noUsageBasedAllowed === true` — even when `hardLimit` is also present and
positive, the flag is checked first — and likewise for a result whose
`hardLimit` is present but zero, `processAccount` makes no disable call and
sends no notification: its whole trace is the single status check. -/
theorem c2_no_action (w : World) (a : Account) (key : String)
    (st : GetHardLimitResponse)
    (hst : checkHardLimit (w.statusNet a.cookie) = some st)
    (h : st.noUsageBasedAllowed = some true ∨ st.hardLimit = some 0) :
    processAccount w a key = [Event.statusCheck a.cookie] ∧
    notifyMsgs (processAccount w a key) = [] ∧
    (processAccount w a key).countP Event.isDisableCall = 0 := by
  have htrace : processAccount w a key = [Event.statusCheck a.cookie] := by
    unfold processAccount
    rw [hst]
    simp only [processStatus]
    rcases h with h | h
    · rw [if_pos h]
    · by_cases hf : st.noUsageBasedAllowed = some true
      · rw [if_pos hf]
      · rw [if_neg hf, h]
        simp
  exact ⟨htrace, by rw [htrace]; rfl, by rw [htrace]; rfl⟩

/-- A world in which the status check reports `noUsageBasedAllowed = true`
together with a positive `hardLimit`. -/
def flagTrueWorld : World :=
  ⟨fun _ => StatusNetOutcome.resp true (some ⟨some true, some 75⟩),
    fun _ => HttpOutcome.resp true,
    fun _ => NotifyNetOutcome.resp true (some (some 0)),
    fun _ => ParseOutcome.throws,
    fun _ => false⟩

/-- Claim C2, witness: the flag-true status with `hardLimit = 75` leads to a
bare status check. -/
theorem c2_no_action_witness :
    processAccount flagTrueWorld ⟨"a@x.com", "c1"⟩ "k" = [Event.statusCheck "c1"] ∧
    notifyMsgs (processAccount flagTrueWorld ⟨"a@x.com", "c1"⟩ "k") = [] ∧
    (processAccount flagTrueWorld ⟨"a@x.com", "c1"⟩ "k").countP Event.isDisableCall = 0 :=
  c2_no_action flagTrueWorld ⟨"a@x.com", "c1"⟩ "k" ⟨some true, some 75⟩ rfl
    (Or.inl rfl)

/-! ## Claim C3 -/

/-- Claim C3: for every account whose status check fails (the failure
sentinel `none`, into which a network error, a non-ok HTTP status, and an
unparseable body all collapse — the trailing conjuncts), `processAccount`
sends exactly one notification, the may-have-expired-cookie message, and
makes no disable call. -/
theorem c3_expired (w : World) (a : Account) (key : String)
    (h : checkHardLimit (w.statusNet a.cookie) = none) :
    processAccount w a key =
      Event.statusCheck a.cookie ::
        (sendWeChatNotification w key (expiredMsg a.email)).1 ∧
    notifyMsgs (processAccount w a key) = [expiredMsg a.email] ∧
    (processAccount w a key).countP Event.isDisableCall = 0 ∧
    checkHardLimit StatusNetOutcome.netErr = none ∧
    (∀ b, checkHardLimit (StatusNetOutcome.resp false b) = none) ∧
    checkHardLimit (StatusNetOutcome.resp true none) = none := by
  have htrace : processAccount w a key =
      Event.statusCheck a.cookie ::
        (sendWeChatNotification w key (expiredMsg a.email)).1 := by
    unfold processAccount
    rw [h]
    simp only [processStatus]
  refine ⟨htrace, ?_, ?_, rfl, fun b => rfl, rfl⟩
  · rw [htrace, notifyMsgs_cons_statusCheck, notifyMsgs_sendWeChatNotification]
  · rw [htrace]
    simp [List.countP_cons, Event.isDisableCall,
      countP_disableCall_sendWeChatNotification]

/-- A world in which the status-check fetch rejects with a network error. -/
def statusFailWorld : World :=
  ⟨fun _ => StatusNetOutcome.netErr,
    fun _ => HttpOutcome.resp true,
    fun _ => NotifyNetOutcome.resp true (some (some 0)),
    fun _ => ParseOutcome.throws,
    fun _ => false⟩

/-- Claim C3, witness: a failing status check for `a@x.com` yields exactly
the expired-cookie notification and no disable call. -/
theorem c3_expired_witness :
    processAccount statusFailWorld ⟨"a@x.com", "c1"⟩ "k" =
      Event.statusCheck "c1" ::
        (sendWeChatNotification statusFailWorld "k" (expiredMsg "a@x.com")).1 ∧
    notifyMsgs (processAccount statusFailWorld ⟨"a@x.com", "c1"⟩ "k") =
      [expiredMsg "a@x.com"] ∧
    (processAccount statusFailWorld ⟨"a@x.com", "c1"⟩ "k").countP Event.isDisableCall = 0 ∧
    checkHardLimit StatusNetOutcome.netErr = none ∧
    (∀ b, checkHardLimit (StatusNetOutcome.resp false b) = none) ∧
    checkHardLimit (StatusNetOutcome.resp true none) = none :=
  c3_expired statusFailWorld ⟨"a@x.com", "c1"⟩ "k" rfl

/-! ## Claim C4 -/

/-- A world in which the stored configuration is valid JSON but not an
array (for example the stored string is `"5"`, which parses to the number
5). -/
def nonArrayWorld : World :=
  ⟨fun _ => StatusNetOutcome.netErr,
    fun _ => HttpOutcome.netErr,
    fun _ => NotifyNetOutcome.netErr,
    fun _ => ParseOutcome.nonIterable,
    fun _ => false⟩

/-- Claim C4, counterexample: the stored value `"5"` is present and fails to
parse as a list of accounts (`JSON.parse` succeeds but yields the number 5,
not a list), yet `handleScheduled` sends no notification at all — the
`catch` only guards `JSON.parse` itself — and terminates with the uncaught
TypeError the `for...of` loop throws on a non-iterable value, so the error
does bubble past the run controller. -/
theorem c4_counterexample :
    handleScheduled nonArrayWorld (some "5") "k" = ([], false) ∧
    notifyMsgs (handleScheduled nonArrayWorld (some "5") "k").1 = [] :=
  ⟨rfl, rfl⟩

/-- Claim C4 (amended): for every stored configuration value that is present,
non-empty, and on which `JSON.parse` throws (invalid JSON), `handleScheduled`
sends exactly one fatal malformed-configuration notification — distinct in
wording from the missing-configuration one — processes zero accounts (no
status checks, no disable calls) and returns normally. -/
theorem c4_amended (w : World) (key raw : String) (hraw : raw ≠ "")
    (hp : w.jsonParse raw = ParseOutcome.throws) :
    handleScheduled w (some raw) key =
      ((sendWeChatNotification w key malformedMsg).1, true) ∧
    notifyMsgs (handleScheduled w (some raw) key).1 = [malformedMsg] ∧
    (handleScheduled w (some raw) key).1.countP Event.isStatusCheck = 0 ∧
    (handleScheduled w (some raw) key).1.countP Event.isDisableCall = 0 ∧
    malformedMsg ≠ missingMsg := by
  have htrace : handleScheduled w (some raw) key =
      ((sendWeChatNotification w key malformedMsg).1, true) := by
    simp only [handleScheduled]
    rw [if_neg hraw, hp]
  refine ⟨htrace, ?_, ?_, ?_, by decide⟩ <;> rw [htrace]
  · exact notifyMsgs_sendWeChatNotification w key malformedMsg
  · exact countP_statusCheck_sendWeChatNotification w key malformedMsg
  · exact countP_disableCall_sendWeChatNotification w key malformedMsg

/-- A world in which `JSON.parse` of the stored configuration throws. -/
def badJsonWorld : World :=
  ⟨fun _ => StatusNetOutcome.netErr,
    fun _ => HttpOutcome.netErr,
    fun _ => NotifyNetOutcome.resp true (some (some 0)),
    fun _ => ParseOutcome.throws,
    fun _ => false⟩

/-- Claim C4 (amended), witness: the stored value `"not json"` with a
throwing parse yields exactly the malformed-configuration notification. -/
theorem c4_amended_witness :
    handleScheduled badJsonWorld (some "not json") "k" =
      ((sendWeChatNotification badJsonWorld "k" malformedMsg).1, true) ∧
    notifyMsgs (handleScheduled badJsonWorld (some "not json") "k").1 = [malformedMsg] ∧
    (handleScheduled badJsonWorld (some "not json") "k").1.countP Event.isStatusCheck = 0 ∧
    (handleScheduled badJsonWorld (some "not json") "k").1.countP Event.isDisableCall = 0 ∧
    malformedMsg ≠ missingMsg :=
  c4_amended badJsonWorld "k" "not json" (by decide) rfl

/-! ## Claim C5 -/

theorem runLoop_append (w : World) (key : String) (xs ys : List Account) :
    runLoop w key (xs ++ ys) = runLoop w key xs ++ runLoop w key ys := by
  induction xs with
  | nil => rfl
  | cons a rest ih =>
    simp only [List.cons_append, runLoop, List.append_eq, ih, List.append_assoc]

/-- Claim C5: an unexpected error raised while processing account `a` is
caught at the run-loop level: the loop contributes exactly the one error
notification naming `a` for that position and still contributes the full
traces of the accounts before and after it — a run never aborts early
because of a single account's unexpected failure. -/
theorem c5_isolation (w : World) (key : String) (pre post : List Account)
    (a : Account) (h : w.raises a = true) :
    runLoop w key (pre ++ a :: post) =
      runLoop w key pre ++
        ((sendWeChatNotification w key (loopErrMsg a.email)).1 ++
          runLoop w key post) ∧
    notifyMsgs (sendWeChatNotification w key (loopErrMsg a.email)).1 =
      [loopErrMsg a.email] := by
  constructor
  · rw [runLoop_append]
    simp only [runLoop]
    rw [if_pos h]
  · exact notifyMsgs_sendWeChatNotification w key (loopErrMsg a.email)

/-- A world in which processing the account `a@x.com` raises an unexpected
error while every other account processes normally. -/
def raisesWorld : World :=
  ⟨fun _ => StatusNetOutcome.resp true (some ⟨none, some 50⟩),
    fun _ => HttpOutcome.resp true,
    fun _ => NotifyNetOutcome.resp true (some (some 0)),
    fun _ => ParseOutcome.arr [⟨"a@x.com", "c1"⟩, ⟨"b@x.com", "c2"⟩],
    fun a => a.email == "a@x.com"⟩

/-- Claim C5, witness: account `a@x.com` raises, and the following account
`b@x.com` is still processed. -/
theorem c5_isolation_witness :
    runLoop raisesWorld "k" ([] ++ ⟨"a@x.com", "c1"⟩ :: [⟨"b@x.com", "c2"⟩]) =
      runLoop raisesWorld "k" [] ++
        ((sendWeChatNotification raisesWorld "k" (loopErrMsg "a@x.com")).1 ++
          runLoop raisesWorld "k" [⟨"b@x.com", "c2"⟩]) ∧
    notifyMsgs (sendWeChatNotification raisesWorld "k" (loopErrMsg "a@x.com")).1 =
      [loopErrMsg "a@x.com"] :=
  c5_isolation raisesWorld "k" [] [⟨"b@x.com", "c2"⟩] ⟨"a@x.com", "c1"⟩ rfl

/-! ## Claim C6 -/

/-- Claim C6: an absent stored account-list entry, or an empty one (both are
falsy for the `if (!accountsJson)` check), makes `handleScheduled` send
exactly one missing-configuration notification and return normally with
zero accounts processed: no status check and no disable call appears in the
trace. -/
theorem c6_missing (w : World) (key : String) (stored : Option String)
    (h : stored = none ∨ stored = some "") :
    handleScheduled w stored key =
      ((sendWeChatNotification w key missingMsg).1, true) ∧
    notifyMsgs (handleScheduled w stored key).1 = [missingMsg] ∧
    (handleScheduled w stored key).1.countP Event.isStatusCheck = 0 ∧
    (handleScheduled w stored key).1.countP Event.isDisableCall = 0 := by
  have htrace : handleScheduled w stored key =
      ((sendWeChatNotification w key missingMsg).1, true) := by
    rcases h with h | h <;> subst h
    · rfl
    · simp [handleScheduled]
  refine ⟨htrace, ?_, ?_, ?_⟩ <;> rw [htrace]
  · exact notifyMsgs_sendWeChatNotification w key missingMsg
  · exact countP_statusCheck_sendWeChatNotification w key missingMsg
  · exact countP_disableCall_sendWeChatNotification w key missingMsg

/-- Claim C6, witness: the absent entry in `demoWorld`. -/
theorem c6_missing_witness :
    handleScheduled demoWorld none "k" =
      ((sendWeChatNotification demoWorld "k" missingMsg).1, true) ∧
    notifyMsgs (handleScheduled demoWorld none "k").1 = [missingMsg] ∧
    (handleScheduled demoWorld none "k").1.countP Event.isStatusCheck = 0 ∧
    (handleScheduled demoWorld none "k").1.countP Event.isDisableCall = 0 :=
  c6_missing demoWorld "k" none (Or.inl rfl)

/-! ## Claim C7 -/

/-- Claim C7: the notifier is a total function (every failure mode of the
source — fetch rejection, non-ok status, unparseable body — is caught inside
it and mapped to `false`, so it never raises to its caller); on an empty
webhook key it returns `false` immediately with no outbound webhook call;
and it returns `true` exactly when the key is non-empty, the webhook POST
resolves with an ok status, and the parsed body has an `errcode` field equal
to 0. -/
theorem c7_notifier (w : World) (key msg : String) :
    sendWeChatNotification w "" msg = ([Event.notify msg], false) ∧
    ((sendWeChatNotification w key msg).2 = true ↔
      key ≠ "" ∧ w.notifyNet msg = NotifyNetOutcome.resp true (some (some 0))) := by
  constructor
  · rfl
  · by_cases hk : key = ""
    · subst hk
      simp [sendWeChatNotification]
    · cases hn : w.notifyNet msg with
      | netErr => simp [sendWeChatNotification, hk, hn]
      | resp ok ec =>
        cases ok
        · simp [sendWeChatNotification, hk, hn]
        · cases ec with
          | none => simp [sendWeChatNotification, hk, hn]
          | some e =>
            by_cases he : e = some 0 <;>
              simp [sendWeChatNotification, hk, hn, he]

/-! ## Claim C8 -/

/-- The claim that some input distinguishes, in the decision of
`processStatus`, a status whose `noUsageBasedAllowed` is absent from the
same status with `noUsageBasedAllowed = false`. -/
def FlagSeparable : Prop :=
  ∃ (w : World) (a : Account) (key : String) (hl : Option Int),
    processStatus w a key (some ⟨none, hl⟩) ≠
      processStatus w a key (some ⟨some false, hl⟩)

/-- The claim that some input distinguishes, in the decision of
`processStatus`, a status whose `hardLimit` is absent from the same status
with `hardLimit = 0`. -/
def LimitSeparable : Prop :=
  ∃ (w : World) (a : Account) (key : String) (f : Option Bool),
    processStatus w a key (some ⟨f, none⟩) ≠
      processStatus w a key (some ⟨f, some 0⟩)

theorem processStatus_flag_absent_eq_false (w : World) (a : Account)
    (key : String) (hl : Option Int) :
    processStatus w a key (some ⟨none, hl⟩) =
      processStatus w a key (some ⟨some false, hl⟩) := by
  simp [processStatus]

theorem processStatus_limit_absent_eq_zero (w : World) (a : Account)
    (key : String) (f : Option Bool) :
    processStatus w a key (some ⟨f, none⟩) =
      processStatus w a key (some ⟨f, some 0⟩) := by
  by_cases hf : f = some true <;> simp [processStatus, hf]

/-- Claim C8, counterexample (proof of the negation): no input leads to
different observable behaviour between an absent and a false
`noUsageBasedAllowed`, nor between an absent and a zero `hardLimit` — the
source checks the flag with `=== true` and the limit with
`!== undefined && > 0`, so absence collapses onto false/zero. -/
theorem c8_counterexample : ¬ (FlagSeparable ∧ LimitSeparable) := by
  rintro ⟨⟨w, a, key, hl, hne⟩, -⟩
  exact hne (processStatus_flag_absent_eq_false w a key hl)

/-- Claim C8 (amended): in the per-account decision algorithm, an absent
`noUsageBasedAllowed` is observationally equivalent to a false one, and an
absent `hardLimit` is observationally equivalent to a zero one: replacing
absence by false/zero never changes the calls or notifications produced. -/
theorem c8_amended (w : World) (a : Account) (key : String)
    (hl : Option Int) (f : Option Bool) :
    processStatus w a key (some ⟨none, hl⟩) =
      processStatus w a key (some ⟨some false, hl⟩) ∧
    processStatus w a key (some ⟨f, none⟩) =
      processStatus w a key (some ⟨f, some 0⟩) :=
  ⟨processStatus_flag_absent_eq_false w a key hl,
    processStatus_limit_absent_eq_zero w a key f⟩

/-! ## Claim C9 -/

theorem monFilter_processStatus (w : World) (a : Account) (k1 k2 : String)
    (ost : Option GetHardLimitResponse) :
    (processStatus w a k1 ost).filter Event.isMonitoring =
      (processStatus w a k2 ost).filter Event.isMonitoring := by
  cases ost with
  | none =>
    simp only [processStatus]
    rw [monFilter_sendWeChatNotification, monFilter_sendWeChatNotification]
  | some st =>
    by_cases hf : st.noUsageBasedAllowed = some true
    · simp [processStatus, hf]
    · cases hhl : st.hardLimit with
      | none => simp [processStatus, hf, hhl]
      | some hl =>
        by_cases hp : 0 < hl
        · by_cases hd : disableHardLimit (w.disableNet a.cookie) <;>
            simp [processStatus, hf, hhl, hp, hd, List.filter_cons,
              monFilter_sendWeChatNotification, Event.isMonitoring,
              Event.isStatusCheck, Event.isDisableCall]
        · simp [processStatus, hf, hhl, hp]

theorem monFilter_processAccount (w : World) (a : Account) (k1 k2 : String) :
    (processAccount w a k1).filter Event.isMonitoring =
      (processAccount w a k2).filter Event.isMonitoring := by
  unfold processAccount
  simp only [List.filter_cons]
  rw [monFilter_processStatus w a k1 k2]

theorem monFilter_runLoop (w : World) (k1 k2 : String)
    (accounts : List Account) :
    (runLoop w k1 accounts).filter Event.isMonitoring =
      (runLoop w k2 accounts).filter Event.isMonitoring := by
  induction accounts with
  | nil => rfl
  | cons a rest ih =>
    simp only [runLoop, List.filter_append]
    rw [ih]
    by_cases hr : w.raises a = true
    · rw [if_pos hr, if_pos hr, monFilter_sendWeChatNotification,
        monFilter_sendWeChatNotification]
    · rw [if_neg hr, if_neg hr, monFilter_processAccount w a k1 k2]

/-- Claim C9: the webhook key does not influence monitoring decisions.  Two
runs identical in every input except the webhook key (including an empty
key) perform the same sequence of status-check and disable calls against
the same cookies, and terminate the same way; the key only reaches
`sendWeChatNotification`, whose events are not monitoring calls. -/
theorem c9_key_noninterference (w : World) (stored : Option String)
    (k1 k2 : String) :
    (handleScheduled w stored k1).1.filter Event.isMonitoring =
      (handleScheduled w stored k2).1.filter Event.isMonitoring ∧
    (handleScheduled w stored k1).2 = (handleScheduled w stored k2).2 := by
  cases stored with
  | none =>
    refine ⟨?_, rfl⟩
    simp only [handleScheduled]
    rw [monFilter_sendWeChatNotification, monFilter_sendWeChatNotification]
  | some raw =>
    by_cases hr : raw = ""
    · subst hr
      exact ⟨by simp [handleScheduled, monFilter_sendWeChatNotification], by
        simp [handleScheduled]⟩
    · constructor
      · simp only [handleScheduled]
        rw [if_neg hr, if_neg hr]
        cases hp : w.jsonParse raw with
        | throws =>
          rw [monFilter_sendWeChatNotification, monFilter_sendWeChatNotification]
        | nonIterable => rfl
        | arr xs =>
          by_cases hlen : xs.length = 0
          · simp [hlen]
          · simp only [hlen, if_false]
            exact monFilter_runLoop w k1 k2 xs
      · simp only [handleScheduled]
        rw [if_neg hr, if_neg hr]
        cases hp : w.jsonParse raw with
        | throws => rfl
        | nonIterable => rfl
        | arr xs => by_cases hlen : xs.length = 0 <;> simp [hlen]

/-! ## Claim C10 -/

/-- Claim C10: the `fetch` handler answers every request with status 200 and
a JSON content type; routing depends only on the path and never on the
method; `/check` gets the acknowledgment body and hands the run to
`ctx.waitUntil`; `/health` gets the health body and triggers nothing; every
other path gets the info body and triggers nothing. -/
theorem c10_fetch (w : World) (stored : Option String)
    (key m m2 p now : String) :
    (fetchHandler w stored key m p now).response.status = 200 ∧
    (fetchHandler w stored key m p now).response.contentType =
      "application/json" ∧
    fetchHandler w stored key m p now = fetchHandler w stored key m2 p now ∧
    (fetchHandler w stored key m "/check" now).response.body =
      BodyKind.checkAck ∧
    (fetchHandler w stored key m "/check" now).background =
      (handleScheduled w stored key).1 ∧
    (fetchHandler w stored key m "/health" now).response.body =
      BodyKind.health now ∧
    (fetchHandler w stored key m "/health" now).background = [] ∧
    (p ≠ "/check" → p ≠ "/health" →
      (fetchHandler w stored key m p now).response.body = BodyKind.info ∧
      (fetchHandler w stored key m p now).background = []) := by
  refine ⟨?_, ?_, rfl, rfl, rfl, rfl, rfl, ?_⟩
  · unfold fetchHandler
    by_cases h1 : p = "/check" <;> by_cases h2 : p = "/health" <;>
      simp [h1, h2]
  · unfold fetchHandler
    by_cases h1 : p = "/check" <;> by_cases h2 : p = "/health" <;>
      simp [h1, h2]
  · intro hc hh
    unfold fetchHandler
    rw [if_neg hc, if_neg hh]
    exact ⟨rfl, rfl⟩

/-- Claim C10, witness: a POST to the unrouted path `/other` gets the info
body, status 200, JSON content type, and triggers nothing. -/
theorem c10_fetch_witness :
    (fetchHandler demoWorld none "k" "POST" "/other" "t0").response.status = 200 ∧
    (fetchHandler demoWorld none "k" "POST" "/other" "t0").response.body =
      BodyKind.info ∧
    (fetchHandler demoWorld none "k" "POST" "/other" "t0").background = [] := by
  have h := c10_fetch demoWorld none "k" "POST" "GET" "/other" "t0"
  have hinfo := h.2.2.2.2.2.2.2 (by decide) (by decide)
  exact ⟨h.1, hinfo.1, hinfo.2⟩

end CursorMonitor
